import Mathlib

/-!
Verification of the student-dashboard data pipeline in `src/main.py`.

Shallow embedding conventions:

* a pandas string cell that may be missing is `Option String` (the `NaN`
  sentinel is `none`);
* python floats are modelled over `ℚ`; `round(x, 2)` is modelled as
  round-half-to-even at two decimals, Python's rounding rule;
* a dynamically typed pandas cell is `PyVal` (string, number or NaN);
* the ambient clock `pd.Timestamp.today()` is passed explicitly as a
  `(year, month, day)` triple.
-/

/-- Model of Python `str.strip` on a character list: drop whitespace at
both ends. -/
def stripChars (cs : List Char) : List Char :=
  ((cs.dropWhile Char.isWhitespace).reverse.dropWhile Char.isWhitespace).reverse

/-- Model of Python `str.strip`. -/
def pyStrip (s : String) : String := ⟨stripChars s.data⟩

/-- Model of Python `str.replace(',', '.')`; since both pattern and
replacement are single characters this is a character map. -/
def pyReplaceCommaDot (s : String) : String :=
  ⟨s.data.map fun c => if c = ',' then '.' else c⟩

/-- Numeric value of a digit string, most significant digit first. -/
def natOfDigits (cs : List Char) : ℕ :=
  cs.foldl (fun n c => 10 * n + (c.toNat - 48)) 0

/-- Exponent suffix of a Python float literal: either empty, or
`e`/`E` followed by an optional sign and a nonempty digit run. -/
def parseExpSuffix : List Char → Option ℤ
  | [] => some 0
  | c :: r =>
    if c = 'e' ∨ c = 'E' then
      let sr : ℤ × List Char :=
        match r with
        | '+' :: t => (1, t)
        | '-' :: t => (-1, t)
        | t => (1, t)
      let ds := sr.2.takeWhile Char.isDigit
      let rest := sr.2.dropWhile Char.isDigit
      if ds.isEmpty ∨ ¬ rest.isEmpty then none
      else some (sr.1 * (natOfDigits ds : ℤ))
    else none

/-- Model of Python `float(s)` on an already stripped string, over `ℚ`:
accepts an optional sign, a digit run with at most one decimal point
(at least one digit overall) and an optional exponent suffix.  The
`inf`/`nan` literals and `_` digit separators lie outside the rational
model; the script never produces them. -/
def pyFloat (s : String) : Option ℚ :=
  let sc : ℚ × List Char :=
    match s.data with
    | '+' :: t => (1, t)
    | '-' :: t => (-1, t)
    | t => (1, t)
  let ip := sc.2.takeWhile Char.isDigit
  let r1 := sc.2.dropWhile Char.isDigit
  let fr : List Char × List Char :=
    match r1 with
    | '.' :: t => (t.takeWhile Char.isDigit, t.dropWhile Char.isDigit)
    | t => ([], t)
  if ip.isEmpty ∧ fr.1.isEmpty then none
  else
    match parseExpSuffix fr.2 with
    | none => none
    | some e =>
      let mant : ℚ := (natOfDigits ip : ℚ) + (natOfDigits fr.1 : ℚ) / ((10 : ℚ) ^ fr.1.length)
      let scaled : ℚ := if 0 ≤ e then mant * (10 : ℚ) ^ e.toNat else mant / (10 : ℚ) ^ (-e).toNat
      some (sc.1 * scaled)

/-- Round-half-to-even to an integer, Python's rounding rule. -/
def roundHalfEven (x : ℚ) : ℤ :=
  let f := ⌊x⌋
  if x - f < 1 / 2 then f
  else if 1 / 2 < x - f then f + 1
  else if f % 2 = 0 then f else f + 1

/-- Model of Python `round(x, 2)`. -/
def round2 (x : ℚ) : ℚ := (roundHalfEven (x * 100) : ℚ) / 100

/-- Source `parse_height_to_cm` (src/main.py lines 11-19): on a present
value, strip, turn `,` into `.`, parse as float; a value `≤ 3` is metres
and is multiplied by 100, otherwise it is already centimetres; the result
is rounded to two decimals.  Missing input or parse failure gives `NaN`. -/
def parse_height_to_cm (value : Option String) : Option ℚ :=
  match value with
  | none => none
  | some v =>
    match pyFloat (pyReplaceCommaDot (pyStrip v)) with
    | none => none
    | some num => some (if num ≤ 3 then round2 (num * 100) else round2 num)

/-- Source `parse_weight` (src/main.py lines 21-28): strip, `,`→`.`,
parse as float; missing input or parse failure gives `NaN`. -/
def parse_weight (value : Option String) : Option ℚ :=
  match value with
  | none => none
  | some v => pyFloat (pyReplaceCommaDot (pyStrip v))

/-- Gregorian leap-year test. -/
def isLeapYear (y : ℕ) : Bool :=
  y % 4 = 0 && (y % 100 ≠ 0 || y % 400 = 0)

/-- Days in a month. -/
def daysInMonth (m y : ℕ) : ℕ :=
  if m = 2 then (if isLeapYear y then 29 else 28)
  else if m = 4 ∨ m = 6 ∨ m = 9 ∨ m = 11 then 30
  else 31

/-- Split a character list at every slash. -/
def splitSlash : List Char → List (List Char)
  | [] => [[]]
  | c :: t =>
    let r := splitSlash t
    if c = '/' then [] :: r
    else
      match r with
      | h :: t2 => (c :: h) :: t2
      | [] => [[c]]

/-- Model of `pd.to_datetime(s, dayfirst=True, errors='coerce')` on the
slash-separated day-first dates the roster uses (`d/m/y`); a string that
is not such a date, or names an invalid calendar day, coerces to `NaT`
(`none`).  Result is `(day, month, year)`. -/
def parseDateDayfirst (s : String) : Option (ℕ × ℕ × ℕ) :=
  match splitSlash (pyStrip s).data with
  | [ds, ms, ys] =>
    if ds.isEmpty || ms.isEmpty || ys.isEmpty ||
        !(ds.all Char.isDigit && ms.all Char.isDigit && ys.all Char.isDigit) then none
    else
      let d := natOfDigits ds
      let m := natOfDigits ms
      let y := natOfDigits ys
      if 1 ≤ m && m ≤ 12 && 1 ≤ d && d ≤ daysInMonth m y then some (d, m, y) else none
  | _ => none

/-- Source `calculate_age` (src/main.py lines 30-41), with the ambient
clock `pd.Timestamp.today()` made explicit as `today = (year, month, day)`:
missing or unparseable birth dates give `NaN`, otherwise
`today.year - bd.year - ((today.month, today.day) < (bd.month, bd.day))`. -/
def calculate_age (today : ℕ × ℕ × ℕ) (birthdate : Option String) : Option ℤ :=
  match birthdate with
  | none => none
  | some s =>
    match parseDateDayfirst s with
    | none => none
    | some (d, m, y) =>
      some ((today.1 : ℤ) - (y : ℤ) -
        (if today.2.1 < m ∨ (today.2.1 = m ∧ today.2.2 < d) then 1 else 0))

/-- Source `calculate_bmi` (src/main.py lines 43-50): `NaN` when weight or
height is missing or the height is zero, else `round(w / (h_m * h_m), 2)`
with `h_m = height_cm / 100`. -/
def calculate_bmi (weight_kg height_cm : Option ℚ) : Option ℚ :=
  match weight_kg, height_cm with
  | some w, some h => if h = 0 then none else some (round2 (w / ((h / 100) * (h / 100))))
  | _, _ => none

/-- Source `bmi_category` (src/main.py lines 52-62).  The spec's labels
Unknown / Underweight / Normal / Overweight / Obesity are the script's
Desconocido / Bajo peso / Normal / Sobrepeso / Obesidad. -/
def bmi_category (bmi : Option ℚ) : String :=
  match bmi with
  | none => "Desconocido"
  | some b =>
    if b < 18.5 then "Bajo peso"
    else if b < 25 then "Normal"
    else if b < 30 then "Sobrepeso"
    else "Obesidad"

/-- Height rule exactly as claim C2 words it: trim, `,`→`.`, parse as
float; on success a value ≤ 3 is multiplied by 100 and rounded to two
decimals, a value > 3 is rounded to two decimals; otherwise absent. -/
def parseHeightCmSpec (v : Option String) : Option ℚ :=
  (v.bind fun s => pyFloat (pyReplaceCommaDot (pyStrip s))).map fun num =>
    if num ≤ 3 then round2 (num * 100) else round2 num

/-- BMI rule exactly as claim C6 words it: absent when either input is
absent or the height is zero, else `weight / (height/100)^2` rounded to
two decimals. -/
def computeBmiSpec (w h : Option ℚ) : Option ℚ :=
  match w, h with
  | some wv, some hv => if hv = 0 then none else some (round2 (wv / (hv / 100) ^ 2))
  | _, _ => none

/-- BMI bands exactly as claim C7 words them, with explicit half-open
intervals (a boundary value belongs to the higher band). -/
def classifyBmiSpec (bmi : Option ℚ) : String :=
  match bmi with
  | none => "Desconocido"
  | some b =>
    if b < 18.5 then "Bajo peso"
    else if 18.5 ≤ b ∧ b < 25 then "Normal"
    else if 25 ≤ b ∧ b < 30 then "Sobrepeso"
    else "Obesidad"

/-- Age rule exactly as claim C8 words it: parse the day-first date (absent
or unparseable gives absent), then current year minus birth year, minus one
exactly when `(current month, current day)` is lexicographically below
`(birth month, birth day)`. -/
def computeAgeSpec (today : ℕ × ℕ × ℕ) (birth : Option String) : Option ℤ :=
  (birth.bind fun s => parseDateDayfirst s).map fun dmy =>
    (today.1 : ℤ) - (dmy.2.2 : ℤ) -
      (if today.2.1 < dmy.2.1 ∨ (today.2.1 = dmy.2.1 ∧ today.2.2 < dmy.1) then 1 else 0)

/-- Dynamically typed pandas cell: a string, a number, or the missing
sentinel `NaN`. -/
inductive PyVal where
  | vstr (s : String)
  | vnum (q : ℚ)
  | vnan
deriving DecidableEq

/-- A raw cell as loaded by `pd.read_csv(p, dtype=str)`: present text or
`NaN`. -/
def rawCell : Option String → PyVal
  | none => PyVal.vnan
  | some s => PyVal.vstr s

/-- Model of `Series.fillna('')` on one cell. -/
def fillnaEmpty : PyVal → PyVal
  | PyVal.vnan => PyVal.vstr ""
  | v => v

/-- Model of pandas `+` on two string cells; anything else is not a string
concatenation. -/
def pyAddStr : PyVal → PyVal → PyVal
  | PyVal.vstr a, PyVal.vstr b => PyVal.vstr (a ++ b)
  | _, _ => PyVal.vnan

/-- Source line 83:
`df['Nombre_Estudiante'].fillna('') + ' ' + df['Apellido_Estudiante'].fillna('')`,
on one row's two name cells. -/
def integranteCell (nombre apellido : PyVal) : PyVal :=
  pyAddStr (pyAddStr (fillnaEmpty nombre) (PyVal.vstr " ")) (fillnaEmpty apellido)

/-- Full-name formula exactly as claim C3 words it: trim each name part,
an absent or empty part contributes the empty string. -/
def claimFullName (f l : Option String) : String :=
  pyStrip (f.getD ("")) ++ " " ++ pyStrip (l.getD (""))

/-- Model of `Series.astype(str)` on one cell: stringify, the missing
sentinel stringifies to the literal text `nan`. -/
def astypeStr : Option String → String
  | none => "nan"
  | some s => s

/-- Title-casing of a character list, tracking whether the previous
character was a letter (Python `str.title`). -/
def titleChars : Bool → List Char → List Char
  | _, [] => []
  | prevAlpha, c :: t =>
    if c.isAlpha then
      (if prevAlpha then c.toLower else c.toUpper) :: titleChars true t
    else c :: titleChars false t

/-- Model of Python `str.title`. -/
def pyTitle (s : String) : String := ⟨titleChars false s.data⟩

/-- Source line 89 text-column normalization:
`df[col].astype(str).str.strip().str.title()` on one cell. -/
def normalizeCat (v : Option String) : String := pyTitle (pyStrip (astypeStr v))

/-- One row of the loaded table (`pd.read_csv(dtype=str)` after the
missing expected columns are filled with `NaN`): every cell is optional
text. -/
structure RawRow where
  codigo : Option String
  nombre : Option String
  apellido : Option String
  fechaNacimiento : Option String
  estatura : Option String
  peso : Option String
  rh : Option String
  colorCabello : Option String
  tallaZapato : Option String
  barrio : Option String
deriving DecidableEq

/-- One row of the dataframe after the derivation stage (src/main.py
lines 83-98).  Note the types record what the script actually leaves in
each column: `estatura` keeps the raw text, while `peso` now holds the
parsed number (line 92 overwrites the raw column) and the three
categorical columns hold plain strings (line 89 stringifies `NaN`). -/
structure DerivedRow where
  codigo : Option String
  integrante : String
  fechaNacimiento : Option String
  estatura : Option String
  rh : String
  colorCabello : String
  barrio : String
  tallaZapato : Option String
  estatura_cm : Option ℚ
  peso : Option ℚ
  edad : Option ℤ
  imc : Option ℚ
  clasificacionIMC : String
deriving DecidableEq

/-- Derived-column assignments of src/main.py lines 83-98 on one row
(each `apply` is per-row, so the whole stage is a row map; the final
`pd.to_numeric(..., errors='coerce')` is the identity on the already
numeric columns). -/
def deriveRow (today : ℕ × ℕ × ℕ) (r : RawRow) : DerivedRow :=
  let estCm := parse_height_to_cm r.estatura
  let pesoNum := parse_weight r.peso
  let imcVal := calculate_bmi pesoNum estCm
  { codigo := r.codigo
    integrante := r.nombre.getD ("") ++ " " ++ r.apellido.getD ("")
    fechaNacimiento := r.fechaNacimiento
    estatura := r.estatura
    rh := normalizeCat r.rh
    colorCabello := normalizeCat r.colorCabello
    barrio := normalizeCat r.barrio
    tallaZapato := r.tallaZapato
    estatura_cm := estCm
    peso := pesoNum
    edad := calculate_age today r.fechaNacimiento
    imc := imcVal
    clasificacionIMC := bmi_category imcVal }

/-- The `Peso` cell of a derived row, as the dynamically typed value that
sits in the dataframe column after line 92. -/
def pesoCellAfter (d : DerivedRow) : PyVal :=
  match d.peso with
  | none => PyVal.vnan
  | some q => PyVal.vnum q

/-- Model of `series >= lo` / `series <= hi` conjunction on an optional
integer cell: a missing value compares `False` against any bound. -/
def rangeOkZ (v : Option ℤ) (lo hi : ℤ) : Bool :=
  match v with
  | none => false
  | some a => decide (lo ≤ a) && decide (a ≤ hi)

/-- Model of the height-range comparison on an optional rational cell
against the integer slider bounds: a missing value compares `False`. -/
def rangeOkQ (v : Option ℚ) (lo hi : ℤ) : Bool :=
  match v with
  | none => false
  | some x => decide ((lo : ℚ) ≤ x) && decide (x ≤ (hi : ℚ))

/-- Filter stage of src/main.py lines 127-135: each non-empty multiselect
restricts its categorical column via `isin`, then the age and height range
comparisons are applied unconditionally. -/
def applyFilters (df : List DerivedRow) (rhSel hairSel barrioSel : List String)
    (edadLo edadHi estLo estHi : ℤ) : List DerivedRow :=
  let f1 := if rhSel.isEmpty then df else df.filter fun r => decide (r.rh ∈ rhSel)
  let f2 := if hairSel.isEmpty then f1 else f1.filter fun r => decide (r.colorCabello ∈ hairSel)
  let f3 := if barrioSel.isEmpty then f2 else f2.filter fun r => decide (r.barrio ∈ barrioSel)
  let f4 := f3.filter fun r => rangeOkZ r.edad edadLo edadHi
  f4.filter fun r => rangeOkQ r.estatura_cm estLo estHi

/-- Membership predicate exactly as claim C1 words it, including its
exception: an absent age or height does not exclude the row when the
corresponding range spans the full configured domain ([0,120] for age,
[0,250] for height). -/
def claimMatchesC1 (r : DerivedRow) (rhSel hairSel barrioSel : List String)
    (edadLo edadHi estLo estHi : ℤ) : Bool :=
  (rhSel.isEmpty || rhSel.contains r.rh) &&
  (hairSel.isEmpty || hairSel.contains r.colorCabello) &&
  (barrioSel.isEmpty || barrioSel.contains r.barrio) &&
  (match r.edad with
    | some a => decide (edadLo ≤ a) && decide (a ≤ edadHi)
    | none => decide (edadLo = 0) && decide (edadHi = 120)) &&
  (match r.estatura_cm with
    | some x => decide ((estLo : ℚ) ≤ x) && decide (x ≤ (estHi : ℚ))
    | none => decide (estLo = 0) && decide (estHi = 250))

/-- Display value of a dashboard metric: a number, or the `N/A` text shown
when the underlying mean is `NaN`. -/
inductive KpiDisplay where
  | value (q : ℚ)
  | notAvailable
deriving DecidableEq

/-- The present (non-`NaN`) values of a numeric column. -/
def presentVals (col : List (Option ℚ)) : List ℚ := col.filterMap id

/-- Model of `Series.mean(skipna=True)`: arithmetic mean of the present
values, `NaN` when there are none. -/
def meanSkipna (col : List (Option ℚ)) : Option ℚ :=
  let p := presentVals col
  if p.isEmpty then none else some (p.sum / (p.length : ℚ))

/-- One mean KPI of src/main.py lines 141-150: `round(col.mean(skipna=True), 2)`
when the filtered view is non-empty, `NaN` otherwise; the widget shows
`N/A` exactly when that number is `NaN`. -/
def kpiMetric (col : List (Option ℚ)) : KpiDisplay :=
  if col.length = 0 then KpiDisplay.notAvailable
  else
    match meanSkipna col with
    | none => KpiDisplay.notAvailable
    | some m => KpiDisplay.value (round2 m)

/-- Descending order with absent keys last, as a pairwise relation on
rows: of two rows in this order, either the later one has an absent key,
or both keys are present and the later key is no larger. -/
def descOk (key : DerivedRow → Option ℚ) (a b : DerivedRow) : Prop :=
  key b = none ∨ ∃ x y, key a = some x ∧ key b = some y ∧ y ≤ x

/-- What `filtered.sort_values(by=key, ascending=False)` (defaults
`kind='quicksort'`, `na_position='last'`) guarantees about its result:
it is a permutation of the input that is pairwise in non-increasing key
order with absent keys last.  The default quicksort is NOT stable, so
the relative order of rows with equal keys is unspecified; the model is
therefore a relation admitting every such ordering rather than one
function picking a tie order the library does not promise. -/
def IsSortValuesDesc (key : DerivedRow → Option ℚ) (l out : List DerivedRow) : Prop :=
  out.Perm l ∧ List.Pairwise (descOk key) out

/-- Source lines 249-250,
`filtered.sort_values(by=key, ascending=False).head(5)`: the admissible
top-5 results are the first five rows of any ordering the sort contract
admits. -/
def IsTop5 (key : DerivedRow → Option ℚ) (l out5 : List DerivedRow) : Prop :=
  ∃ out, IsSortValuesDesc key l out ∧ out5 = out.take 5

/-- Concrete derived row with a present height but an absent age, used to
test the filter stage. -/
def rowNoAge : DerivedRow :=
  { codigo := some ("S1")
    integrante := "Ana B"
    fechaNacimiento := none
    estatura := some ("1,70")
    rh := "O+"
    colorCabello := "Negro"
    barrio := "Centro"
    tallaZapato := none
    estatura_cm := some 170
    peso := some 60
    edad := none
    imc := some 20
    clasificacionIMC := "Normal" }

/-- Concrete raw row whose weight text uses a decimal comma. -/
def rawRowW : RawRow :=
  { codigo := some ("C1")
    nombre := some ("Ana")
    apellido := some ("B")
    fechaNacimiento := some ("15/03/2000")
    estatura := some ("1,75")
    peso := some ("70,5")
    rh := some ("O+")
    colorCabello := some ("negro")
    tallaZapato := some ("38")
    barrio := some ("Centro") }

/-- Concrete derived row used to exhibit a sort-key tie. -/
def rowTieA : DerivedRow :=
  { codigo := some ("A")
    integrante := "A A"
    fechaNacimiento := none
    estatura := some ("1,70")
    rh := "O+"
    colorCabello := "Negro"
    barrio := "Centro"
    tallaZapato := none
    estatura_cm := some 170
    peso := some 60
    edad := some 20
    imc := some 20
    clasificacionIMC := "Normal" }

/-- Same height as rowTieA but a different code: the two rows tie on the
height sort key. -/
def rowTieB : DerivedRow := { rowTieA with codigo := some ("B") }

unseal Rat.mul Rat.inv Rat.add Rat.sub Rat.ofScientific in
/-- C2: parse_height_to_cm trims surrounding whitespace, replaces the
decimal comma by a dot and parses the result as a float; a parsed value
at most 3 is multiplied by 100 and rounded to two decimals, a larger
value is only rounded; absent, empty or unparseable input gives absent.
The conjuncts restate the spec's five concrete examples. -/
theorem c2_parse_height :
    (∀ v, parse_height_to_cm v = parseHeightCmSpec v) ∧
    parse_height_to_cm (some ("1.75")) = some 175 ∧
    parse_height_to_cm (some ("175")) = some 175 ∧
    parse_height_to_cm (some ("1,75")) = some 175 ∧
    parse_height_to_cm (some ("")) = none ∧
    parse_height_to_cm (some ("abc")) = none ∧
    parse_height_to_cm none = none := by
  refine ⟨fun v => ?_, by decide, by decide, by decide, by decide, by decide, rfl⟩
  cases v with
  | none => rfl
  | some s =>
    cases h : pyFloat (pyReplaceCommaDot (pyStrip s)) <;>
      simp [parse_height_to_cm, parseHeightCmSpec, h]

unseal Rat.mul Rat.inv Rat.add Rat.sub Rat.ofScientific in
/-- C6: calculate_bmi is absent when the weight is absent, the height is
absent or the height is zero, and otherwise equals
weight / (height/100)^2 rounded to two decimals; together with the spec's
three concrete examples (22.86 = 2286/100). -/
theorem c6_compute_bmi :
    (∀ w hgt, calculate_bmi w hgt = computeBmiSpec w hgt) ∧
    calculate_bmi (some 70) (some 175) = some (2286 / 100) ∧
    calculate_bmi none (some 175) = none ∧
    calculate_bmi (some 70) (some 0) = none := by
  refine ⟨fun w hgt => ?_, by decide, rfl, by decide⟩
  cases w with
  | none => rfl
  | some wv =>
    cases hgt with
    | none => rfl
    | some hv => simp [calculate_bmi, computeBmiSpec, pow_two]

unseal Rat.mul Rat.inv Rat.add Rat.sub Rat.ofScientific in
/-- C7: bmi_category is Desconocido (Unknown) on an absent BMI and
otherwise uses the half-open bands below 18.5 (Bajo peso / Underweight),
18.5 to below 25 (Normal), 25 to below 30 (Sobrepeso / Overweight) and
30 upward (Obesidad / Obesity), each boundary belonging to the higher
band; together with the spec's five concrete examples. -/
theorem c7_classify_bmi :
    (∀ b, bmi_category b = classifyBmiSpec b) ∧
    bmi_category (some (18.4 : ℚ)) = "Bajo peso" ∧
    bmi_category (some (18.5 : ℚ)) = "Normal" ∧
    bmi_category (some (24.999 : ℚ)) = "Normal" ∧
    bmi_category (some (30 : ℚ)) = "Obesidad" ∧
    bmi_category none = "Desconocido" := by
  refine ⟨fun b => ?_, by decide, by decide, by decide, by decide, rfl⟩
  cases b with
  | none => rfl
  | some q =>
    rcases lt_or_le q (18.5 : ℚ) with h1 | h1
    · simp [bmi_category, classifyBmiSpec, h1]
    · rcases lt_or_le q (25 : ℚ) with h2 | h2
      · simp [bmi_category, classifyBmiSpec, h1, h2, not_lt.mpr h1]
      · rcases lt_or_le q (30 : ℚ) with h3 | h3
        · simp [bmi_category, classifyBmiSpec, h1, h2, h3, not_lt.mpr h1, not_lt.mpr h2]
        · simp [bmi_category, classifyBmiSpec, not_lt.mpr h1, not_lt.mpr h2, not_lt.mpr h3]

/-- C8: calculate_age is absent on an absent or unparseable day-first
birth date, and otherwise equals the current year minus the birth year,
minus one exactly when (current month, current day) is lexicographically
below (birth month, birth day); on the fixed today 2024-01-01 the birth
date 15/03/2000 gives age 23. -/
theorem c8_compute_age :
    (∀ today bd, calculate_age today bd = computeAgeSpec today bd) ∧
    calculate_age (2024, 1, 1) (some ("15/03/2000")) = some 23 := by
  refine ⟨fun today bd => ?_, by decide⟩
  cases bd with
  | none => rfl
  | some s =>
    cases h : parseDateDayfirst s with
    | none => simp [calculate_age, computeAgeSpec, h]
    | some dmy =>
      obtain ⟨d, m, y⟩ := dmy
      simp [calculate_age, computeAgeSpec, h]

/-- C10: text normalization stringifies each categorical cell before
trimming and title-casing, so the column afterwards holds plain strings
only; a missing cell is the stringified sentinel, title-cased to exactly
the text Nan, and the three categorical columns of a derived row are
exactly this normalization of their raw cells. -/
theorem c10_categorical_nan :
    (∀ v : Option String,
      normalizeCat v = (match v with
        | none => "Nan"
        | some s => pyTitle (pyStrip s))) ∧
    (∀ (today : ℕ × ℕ × ℕ) (r : RawRow),
      (deriveRow today r).rh = normalizeCat r.rh ∧
      (deriveRow today r).colorCabello = normalizeCat r.colorCabello ∧
      (deriveRow today r).barrio = normalizeCat r.barrio) := by
  refine ⟨fun v => ?_, fun today r => ⟨rfl, rfl, rfl⟩⟩
  cases v with
  | none => rfl
  | some s => rfl

/-- C3 counterexample: with first name " Ana " (surrounding spaces) the
script's full-name cell keeps the spaces while the claim's trimmed
formula does not, so full_name is not trim(first) + space + trim(last). -/
theorem c3_counterexample :
    integranteCell (rawCell (some (" Ana "))) (rawCell (some ("B"))) = PyVal.vstr (" Ana  B") ∧
    claimFullName (some (" Ana ")) (some ("B")) = "Ana B" ∧
    decide ((" Ana  B" : String) = "Ana B") = false := by
  exact ⟨rfl, rfl, by decide⟩

/-- C3 amended: full_name is the untrimmed concatenation
first + space + last, an absent name part contributing the empty string;
the resulting cell is always a string, never the absent marker. -/
theorem c3_full_name_amended :
    ∀ f l : Option String,
      integranteCell (rawCell f) (rawCell l) =
        PyVal.vstr (f.getD ("") ++ " " ++ l.getD ("")) := by
  intro f l
  cases f <;> cases l <;> rfl

unseal Rat.mul Rat.inv Rat.add Rat.sub Rat.ofScientific in
/-- C4 counterexample: for the raw weight text 70,5 the derived table's
Peso cell holds the parsed number 70.5 = 141/2, not the original text, so
the raw weight column is mutated (replaced by its parsed numeric value)
by the derivation stage. -/
theorem c4_counterexample :
    pesoCellAfter (deriveRow (2024, 1, 1) rawRowW) = PyVal.vnum (141 / 2) ∧
    rawCell rawRowW.peso = PyVal.vstr ("70,5") ∧
    decide (PyVal.vnum (141 / 2) = PyVal.vstr ("70,5")) = false := by
  refine ⟨by decide, rfl, by decide⟩

/-- C4 amended: the derivation stage preserves the raw height text and
birth-date columns unchanged, but replaces the raw weight column with its
parsed numeric value. -/
theorem c4_raw_columns_amended :
    ∀ (today : ℕ × ℕ × ℕ) (r : RawRow),
      (deriveRow today r).estatura = r.estatura ∧
      (deriveRow today r).fechaNacimiento = r.fechaNacimiento ∧
      (deriveRow today r).peso = parse_weight r.peso := by
  intro today r
  exact ⟨rfl, rfl, rfl⟩

/-- C9: a mean KPI equals the rounded arithmetic mean of the present
values of its column over the filtered view — absent values are ignored —
and is the N/A display exactly when the column has no present value,
in particular when the filtered view is empty. -/
theorem c9_kpi_mean :
    ∀ col : List (Option ℚ),
      kpiMetric col =
        if presentVals col = [] then KpiDisplay.notAvailable
        else KpiDisplay.value (round2 ((presentVals col).sum / ((presentVals col).length : ℚ))) := by
  intro col
  by_cases hc : col.length = 0
  · have hnil : col = [] := List.length_eq_zero.mp hc
    subst hnil; rfl
  · by_cases hp : presentVals col = []
    · simp [kpiMetric, meanSkipna, hc, hp, List.isEmpty_iff]
    · simp [kpiMetric, meanSkipna, hc, hp, List.isEmpty_iff]

/-- Membership through one optional categorical filter: an empty
selection leaves the table unchanged, a non-empty one keeps exactly the
rows whose column value is selected. -/
theorem mem_catFilter (sel : List String) (f : DerivedRow → String) (l : List DerivedRow)
    (r : DerivedRow) :
    (r ∈ if sel.isEmpty then l else l.filter fun x => decide (f x ∈ sel)) ↔
      r ∈ l ∧ (sel = [] ∨ f r ∈ sel) := by
  cases sel with
  | nil => simp
  | cons a t => simp [List.mem_filter]

/-- An optional integer passes the range comparisons exactly when it is
present and inside the inclusive range. -/
theorem rangeOkZ_iff (v : Option ℤ) (lo hi : ℤ) :
    rangeOkZ v lo hi = true ↔ ∃ a, v = some a ∧ lo ≤ a ∧ a ≤ hi := by
  cases v <;> simp [rangeOkZ]

/-- An optional rational passes the range comparisons exactly when it is
present and inside the inclusive range. -/
theorem rangeOkQ_iff (v : Option ℚ) (lo hi : ℤ) :
    rangeOkQ v lo hi = true ↔ ∃ x, v = some x ∧ (lo : ℚ) ≤ x ∧ x ≤ (hi : ℚ) := by
  cases v <;> simp [rangeOkQ]

unseal Rat.mul Rat.inv Rat.add Rat.sub Rat.ofScientific in
/-- C1 counterexample: rowNoAge has an absent age, a present height 170,
and is filtered with no categorical restriction and the full-domain
ranges [0,120] and [0,250]; the claim's membership predicate admits the
row (absent age does not exclude at the full-domain range), but the
filter stage drops it, so the claimed biconditional fails here. -/
theorem c1_counterexample :
    claimMatchesC1 rowNoAge [] [] [] 0 120 0 250 = true ∧
    applyFilters [rowNoAge] [] [] [] 0 120 0 250 = [] := by
  exact ⟨by decide, by decide⟩

/-- C1 amended: a row is in the filtered view iff it is in the base
table, passes every non-empty categorical restriction, and has a present
age and a present height inside the inclusive ranges; an absent age or
height always excludes the row, even when the range spans the full
configured domain. -/
theorem c1_filter_membership_amended :
    ∀ (df : List DerivedRow) (rhSel hairSel barrioSel : List String)
      (edadLo edadHi estLo estHi : ℤ) (r : DerivedRow),
      r ∈ applyFilters df rhSel hairSel barrioSel edadLo edadHi estLo estHi ↔
        r ∈ df ∧ (rhSel = [] ∨ r.rh ∈ rhSel) ∧ (hairSel = [] ∨ r.colorCabello ∈ hairSel) ∧
          (barrioSel = [] ∨ r.barrio ∈ barrioSel) ∧
          (∃ a, r.edad = some a ∧ edadLo ≤ a ∧ a ≤ edadHi) ∧
          (∃ x, r.estatura_cm = some x ∧ (estLo : ℚ) ≤ x ∧ x ≤ (estHi : ℚ)) := by
  intro df rhSel hairSel barrioSel edadLo edadHi estLo estHi r
  simp only [applyFilters, List.mem_filter, mem_catFilter, rangeOkZ_iff, rangeOkQ_iff]
  tauto

/-- C5 counterexample: the two equal-height rows rowTieA and rowTieB tie
on the sort key, and the ordering [rowTieB, rowTieA] — ties NOT in
original order — is admitted by the sorting contract (it is a
permutation, descending, absent-last), so it is an admissible top-5
result; since the two lists differ, the claimed stable tie-break
(original order preserved among equal keys) is not a guarantee of the
program. -/
theorem c5_counterexample :
    IsTop5 (fun r => r.estatura_cm) [rowTieA, rowTieB] [rowTieB, rowTieA] ∧
    decide (([rowTieB, rowTieA] : List DerivedRow) = [rowTieA, rowTieB]) = false := by
  constructor
  · refine ⟨[rowTieB, rowTieA], ⟨List.Perm.swap rowTieA rowTieB [], ?_⟩, rfl⟩
    refine List.Pairwise.cons ?_ (List.Pairwise.cons ?_ List.Pairwise.nil)
    · intro b hb
      rw [List.mem_singleton] at hb
      subst hb
      exact Or.inr ⟨170, 170, rfl, rfl, le_refl 170⟩
    · intro b hb
      exact absurd hb (List.not_mem_nil b)
  · decide

/-- C5 amended: every result the sorting contract admits for
sort_values(descending).head(5) — the first five rows of any permutation
of the table in non-increasing key order with absent keys last — has
exactly min(5, row count) rows (no padding, a 3-row table yields 3
rows), is pairwise descending with absent keys last, and consists of
rows of the table; the order among rows with equal keys is unspecified
because the default quicksort is not stable, so no stable tie-break is
guaranteed. -/
theorem c5_top5_amended :
    ∀ (key : DerivedRow → Option ℚ) (l out5 : List DerivedRow),
      IsTop5 key l out5 →
        out5.length = min 5 l.length ∧
        List.Pairwise (descOk key) out5 ∧
        ∀ r ∈ out5, r ∈ l := by
  intro key l out5 h
  obtain ⟨out, ⟨hperm, hpair⟩, hout5⟩ := h
  subst hout5
  refine ⟨?_, ?_, ?_⟩
  · rw [List.length_take, hperm.length_eq, inf_eq_min]
  · exact List.Pairwise.sublist (List.take_sublist 5 _) hpair
  · intro r hr
    exact hperm.mem_iff.mp ((List.take_sublist 5 out).subset hr)

/-- C5 amended witness: the one-row table with its identity ordering
discharges the hypothesis of the amended theorem, whose conclusions then
evaluate on that concrete input. -/
theorem c5_top5_amended_witness :
    IsTop5 (fun r => r.estatura_cm) [rowTieA] [rowTieA] ∧
    ([rowTieA] : List DerivedRow).length = min 5 ([rowTieA] : List DerivedRow).length ∧
    List.Pairwise (descOk fun r => r.estatura_cm) [rowTieA] ∧
    ∀ r ∈ ([rowTieA] : List DerivedRow), r ∈ ([rowTieA] : List DerivedRow) := by
  have h : IsTop5 (fun r => r.estatura_cm) [rowTieA] [rowTieA] :=
    ⟨[rowTieA],
      ⟨List.Perm.refl _,
        List.Pairwise.cons (fun b hb => absurd hb (List.not_mem_nil b)) List.Pairwise.nil⟩,
      rfl⟩
  exact ⟨h, (c5_top5_amended (fun r => r.estatura_cm) [rowTieA] [rowTieA] h).1,
    (c5_top5_amended (fun r => r.estatura_cm) [rowTieA] [rowTieA] h).2.1,
    (c5_top5_amended (fun r => r.estatura_cm) [rowTieA] [rowTieA] h).2.2⟩
